import Mathlib

/-!
Shallow embedding of the gesture classification and temporal confirmation
pipeline of the AdaptEd frontend (`classifyGesture`, `getSmoothedGesture`,
`executeGestureAction`, the `hands.onResults` frame handler and
`stopGestureRecognition`).

Coordinates are modelled as exact rationals.  The source compares
`Math.sqrt`-distances against the literals 0.06 and 0.07; since both sides
are nonnegative and squaring is monotone, the embedding compares squared
distances against 9/2500 (= 0.06²) and 49/10000 (= 0.07²), which decides
the same predicate without needing square roots.

Array accesses `landmarks[i]` are modelled with `List.getElem?` so that an
out-of-range access is a visible failure (`none`), exactly as a JS access
on a too-short array yields `undefined` and the subsequent property read
throws.
-/

/-- One hand landmark: normalized x, y and an optional relative depth z
(the source reads `a.z || 0`, so a missing z is treated as 0). -/
structure Landmark where
  x : ℚ
  y : ℚ
  z : Option ℚ
deriving DecidableEq, Repr

/-- `(a.z || 0)` from the source. -/
def zOr0 (a : Landmark) : ℚ := a.z.getD 0

/-- Squared Euclidean distance between two landmarks; the source's
`landmarkDist(a, b)` is the square root of this. -/
def landmarkDistSq (a : Landmark) (b : Landmark) : ℚ :=
  (a.x - b.x) ^ 2 + (a.y - b.y) ^ 2 + (zOr0 a - zOr0 b) ^ 2

/-- Result of classifying one frame: `{ name, emoji, action }`; the source's
`action: null` on the Unknown fallback is modelled as `none`. -/
structure GestureResult where
  name : String
  emoji : String
  action : Option String
deriving DecidableEq, Repr

/-- The numeric features `classifyGesture` extracts from the landmarks
before walking the rule chain.  `ext0..ext3` are
`fingersExtended[0..3]` (index, middle, ring, pinky); the raw
coordinates needed by the Thumbs Up/Down rules and the thumb-index
distance (squared) are carried along. -/
structure Features where
  ext0 : Bool
  ext1 : Bool
  ext2 : Bool
  ext3 : Bool
  thumbExtended : Bool
  thumbPointingUp : Bool
  thumbTipY : ℚ
  indexMcpY : ℚ
  thumbIpY : ℚ
  thumbIndexDistSq : ℚ
deriving DecidableEq, Repr

/-- `fingersExtended.filter(Boolean).length` from the source. -/
def Features.extendedCount (f : Features) : ℕ :=
  (List.filter id [f.ext0, f.ext1, f.ext2, f.ext3]).length

/-- Feature extraction from the thirteen landmarks `classifyGesture`
actually reads (indices 0, 2, 3, 4, 5, 6, 8, 10, 12, 14, 16, 18, 20):
`landmarks[tip].y < landmarks[pips[i]].y` per finger, the thumb lateral
spread test, the thumb-up test, and the thumb-index distance. -/
def extractFeatures (l0 l2 l3 l4 l5 l6 l8 l10 l12 l14 l16 l18 l20 : Landmark) :
    Features where
  ext0 := decide (l8.y < l6.y)
  ext1 := decide (l12.y < l10.y)
  ext2 := decide (l16.y < l14.y)
  ext3 := decide (l20.y < l18.y)
  thumbExtended := decide (|l4.x - l2.x| > |l3.x - l2.x|)
  thumbPointingUp := decide (l4.y < l0.y)
  thumbTipY := l4.y
  indexMcpY := l5.y
  thumbIpY := l3.y
  thumbIndexDistSq := landmarkDistSq l4 l8

/-- The ordered first-match rule chain of `classifyGesture`, rule for rule
in source order.  The source computes `pinchDist` and `okDist` as the same
`landmarkDist(landmarks[4], landmarks[8])`, so both compare
`thumbIndexDistSq` here (against 0.06² and 0.07²). -/
def classifyFromFeatures (f : Features) : GestureResult :=
  if 4 ≤ f.extendedCount ∧ f.thumbExtended = true then
    ⟨"Open Palm", "✋", some "stop"⟩
  else if f.thumbExtended = true ∧ f.thumbPointingUp = true ∧
      f.extendedCount = 0 ∧ f.thumbTipY < f.indexMcpY then
    ⟨"Thumbs Up", "👍", some "confirm"⟩
  else if f.thumbExtended = true ∧ f.thumbPointingUp = false ∧
      f.extendedCount = 0 ∧ f.thumbTipY > f.thumbIpY then
    ⟨"Thumbs Down", "👎", some "reject"⟩
  else if f.extendedCount = 0 ∧ f.thumbExtended = false then
    ⟨"Fist", "✊", some "start"⟩
  else if f.thumbIndexDistSq < 9 / 2500 ∧ f.ext1 = false ∧ f.ext2 = false ∧
      f.ext3 = false then
    ⟨"Pinch", "🤏", some "zoom"⟩
  else if f.thumbIndexDistSq < 49 / 10000 ∧ f.ext1 = true ∧ f.ext2 = true ∧
      f.ext3 = true then
    ⟨"OK Sign", "👌", some "toggle-theme"⟩
  else if f.ext0 = true ∧ f.ext1 = true ∧ f.ext2 = false ∧ f.ext3 = false then
    ⟨"Peace Sign", "✌️", some "scroll"⟩
  else if f.ext0 = true ∧ f.ext1 = false ∧ f.ext2 = false ∧ f.ext3 = false then
    ⟨"Pointing", "☝️", some "point"⟩
  else if f.ext0 = true ∧ f.ext1 = true ∧ f.ext2 = true ∧ f.ext3 = false then
    ⟨"Three Fingers", "🤟", some "scroll-up"⟩
  else if f.thumbExtended = true ∧ f.ext0 = true ∧ f.ext1 = false ∧
      f.ext2 = false ∧ f.ext3 = false then
    ⟨"L-Shape", "👆", some "prev-section"⟩
  else if 4 ≤ f.extendedCount ∧ f.thumbExtended = false then
    ⟨"Four Fingers", "🖖", some "next-section"⟩
  else if f.ext0 = true ∧ f.ext1 = false ∧ f.ext2 = false ∧ f.ext3 = true then
    ⟨"Rock On", "🤘", some "top"⟩
  else if f.thumbExtended = true ∧ f.ext0 = false ∧ f.ext1 = false ∧
      f.ext2 = false ∧ f.ext3 = true then
    ⟨"Hang Loose", "🤙", some "bottom"⟩
  else
    ⟨"Unknown", "🤚", none⟩

/-- The landmark reads `classifyGesture` performs, in Option so that a
too-short hand is a visible failure rather than a stubbed default. -/
def handFeatures? (h : List Landmark) : Option Features := do
  let l0 ← h[0]?
  let l2 ← h[2]?
  let l3 ← h[3]?
  let l4 ← h[4]?
  let l5 ← h[5]?
  let l6 ← h[6]?
  let l8 ← h[8]?
  let l10 ← h[10]?
  let l12 ← h[12]?
  let l14 ← h[14]?
  let l16 ← h[16]?
  let l18 ← h[18]?
  let l20 ← h[20]?
  pure (extractFeatures l0 l2 l3 l4 l5 l6 l8 l10 l12 l14 l16 l18 l20)

/-- `classifyGesture(landmarks)`: extract features, then walk the rule
chain.  Fails (returns `none`) exactly when a landmark read is out of
range. -/
def classifyGesture? (h : List Landmark) : Option GestureResult :=
  (handFeatures? h).map classifyFromFeatures

/-- `const GESTURE_CONFIRM_FRAMES = 3`. -/
def GESTURE_CONFIRM_FRAMES : ℕ := 3

/-- The mutable confirmation state: `gestureBuffer` (the sliding window of
recent raw names) and `confirmedGesture`. -/
structure ConfState where
  gestureBuffer : List String
  confirmedGesture : Option String
deriving DecidableEq, Repr

/-- Initial confirmation state: `gestureBuffer = []`,
`confirmedGesture = null`. -/
def initConfState : ConfState := ⟨[], none⟩

/-- `getSmoothedGesture(currentGesture)`: push the raw name, evict the
oldest entry when the buffer exceeds `GESTURE_CONFIRM_FRAMES`, and return
the gesture exactly when the buffer is full, every entry equals the
current name, and the name differs from `confirmedGesture`. -/
def getSmoothedGesture (s : ConfState) (g : GestureResult) :
    ConfState × Option GestureResult :=
  let pushed := s.gestureBuffer ++ [g.name]
  let buf := if GESTURE_CONFIRM_FRAMES < pushed.length then pushed.tail else pushed
  if buf.length = GESTURE_CONFIRM_FRAMES ∧ ∀ x ∈ buf, x = g.name then
    if s.confirmedGesture ≠ some g.name then
      (⟨buf, some g.name⟩, some g)
    else
      (⟨buf, s.confirmedGesture⟩, none)
  else
    (⟨buf, s.confirmedGesture⟩, none)

/-- The debounce literal `800` in `executeGestureAction` (milliseconds). -/
def DEBOUNCE_MS : ℤ := 800

/-- The mutable debounce state: `lastGesture` and `gestureDebounce`
(timestamp of the last executed action, ms). -/
structure DebounceState where
  lastGesture : String
  gestureDebounce : ℤ
deriving DecidableEq, Repr

/-- Initial debounce state: `lastGesture = ''`, `gestureDebounce = 0`. -/
def initDebounceState : DebounceState := ⟨"", 0⟩

/-- `executeGestureAction(gesture)` at time `now`: return early (no
action, state unchanged) when the name equals `lastGesture` and less than
`DEBOUNCE_MS` elapsed since `gestureDebounce`; otherwise record name and
time and execute (the Boolean result is whether the action executed). -/
def executeGestureAction (s : DebounceState) (g : GestureResult) (now : ℤ) :
    DebounceState × Bool :=
  if g.name = s.lastGesture ∧ now - s.gestureDebounce < DEBOUNCE_MS then
    (s, false)
  else
    (⟨g.name, now⟩, true)

/-- The whole per-session mutable state of the pipeline. -/
structure PipelineState where
  conf : ConfState
  deb : DebounceState
deriving DecidableEq, Repr

/-- State at `startGestureRecognition`: all four variables at their
declared initial values. -/
def initPipelineState : PipelineState := ⟨initConfState, initDebounceState⟩

/-- One frame of the `hands.onResults` handler, gesture part: `raw` is the
classifier output for the detected hand (`none` = no hand detected).  A
raw gesture with a truthy `action` goes through smoothing and, when
confirmed, through `executeGestureAction`; an Unknown gesture (`action`
null) or an absent hand clears `gestureBuffer` and `confirmedGesture`.
The emitted result is the gesture whose action actually executed, if
any. -/
def processFrame (s : PipelineState) (raw : Option GestureResult) (now : ℤ) :
    PipelineState × Option GestureResult :=
  match raw with
  | some g =>
      if g.action.isSome = true then
        let r := getSmoothedGesture s.conf g
        match r.2 with
        | some cg =>
            let e := executeGestureAction s.deb cg now
            (⟨r.1, e.1⟩, if e.2 = true then some cg else none)
        | none => (⟨r.1, s.deb⟩, none)
      else
        (⟨⟨[], none⟩, s.deb⟩, none)
  | none => (⟨⟨[], none⟩, s.deb⟩, none)

/-- Run a sequence of frames (raw classification, timestamp) through the
handler, collecting the per-frame emissions in order. -/
def runFrames (s : PipelineState) (frames : List (Option GestureResult × ℤ)) :
    PipelineState × List (Option GestureResult) :=
  match frames with
  | [] => (s, [])
  | f :: rest =>
      let r := processFrame s f.1 f.2
      let rr := runFrames r.1 rest
      (rr.1, r.2 :: rr.2)

/-- The gesture-state effect of `stopGestureRecognition`: it sets
`gestureBuffer = []` and `confirmedGesture = null`; `lastGesture` and
`gestureDebounce` are not written anywhere in the function. -/
def stopReset (s : PipelineState) : PipelineState :=
  ⟨⟨[], none⟩, s.deb⟩

/-! ### Concrete gestures used in the confirmation-engine traces -/

/-- An abstract gesture labelled "A" with a truthy action. -/
def gA : GestureResult := ⟨"A", "", some "a"⟩

/-- An abstract gesture labelled "B" with a truthy action. -/
def gB : GestureResult := ⟨"B", "", some "b"⟩

/-- The closed enumeration of ActionTag values; the source's `null`
(Unknown fallback) is `none`. -/
def actionTags : List (Option String) :=
  [some "stop", some "confirm", some "reject", some "start", some "zoom",
   some "toggle-theme", some "scroll", some "point", some "scroll-up",
   some "prev-section", some "next-section", some "top", some "bottom", none]

/-- A concrete hand whose features put the index finger extended, the
middle/ring/pinky curled and the thumb extended, with the thumb tip on
top of the index tip (thumb-index distance 0). -/
def handC2 : List Landmark :=
  [⟨0, 1, none⟩, ⟨0, 0, none⟩, ⟨0, 1/2, none⟩, ⟨1/10, 1/2, none⟩,
   ⟨1/2, 1/10, none⟩, ⟨1/2, 3/5, none⟩, ⟨1/2, 1/2, none⟩, ⟨0, 0, none⟩,
   ⟨1/2, 1/10, none⟩, ⟨0, 0, none⟩, ⟨0, 1/2, none⟩, ⟨0, 0, none⟩,
   ⟨0, 9/10, none⟩, ⟨0, 0, none⟩, ⟨0, 1/2, none⟩, ⟨0, 0, none⟩,
   ⟨0, 9/10, none⟩, ⟨0, 0, none⟩, ⟨0, 1/2, none⟩, ⟨0, 0, none⟩,
   ⟨0, 9/10, none⟩]

/-- The features `classifyGesture` extracts from `handC2`. -/
def fC2 : Features :=
  ⟨true, false, false, false, true, true, 1/10, 3/5, 1/2, 0⟩

/-- On a hand of exactly 21 landmarks every read `classifyGesture`
performs is in range, so feature extraction succeeds. -/
theorem handFeatures?_isSome (h : List Landmark) (hl : h.length = 21) :
    ∃ f, handFeatures? h = some f := by
  unfold handFeatures?
  rw [List.getElem?_eq_getElem (show 0 < h.length by omega),
    List.getElem?_eq_getElem (show 2 < h.length by omega),
    List.getElem?_eq_getElem (show 3 < h.length by omega),
    List.getElem?_eq_getElem (show 4 < h.length by omega),
    List.getElem?_eq_getElem (show 5 < h.length by omega),
    List.getElem?_eq_getElem (show 6 < h.length by omega),
    List.getElem?_eq_getElem (show 8 < h.length by omega),
    List.getElem?_eq_getElem (show 10 < h.length by omega),
    List.getElem?_eq_getElem (show 12 < h.length by omega),
    List.getElem?_eq_getElem (show 14 < h.length by omega),
    List.getElem?_eq_getElem (show 16 < h.length by omega),
    List.getElem?_eq_getElem (show 18 < h.length by omega),
    List.getElem?_eq_getElem (show 20 < h.length by omega)]
  exact ⟨_, rfl⟩

/-- The fourteen results the rule chain can produce, in rule order. -/
def gestureResults : List GestureResult :=
  [⟨"Open Palm", "✋", some "stop"⟩, ⟨"Thumbs Up", "👍", some "confirm"⟩,
   ⟨"Thumbs Down", "👎", some "reject"⟩, ⟨"Fist", "✊", some "start"⟩,
   ⟨"Pinch", "🤏", some "zoom"⟩, ⟨"OK Sign", "👌", some "toggle-theme"⟩,
   ⟨"Peace Sign", "✌️", some "scroll"⟩, ⟨"Pointing", "☝️", some "point"⟩,
   ⟨"Three Fingers", "🤟", some "scroll-up"⟩,
   ⟨"L-Shape", "👆", some "prev-section"⟩,
   ⟨"Four Fingers", "🖖", some "next-section"⟩, ⟨"Rock On", "🤘", some "top"⟩,
   ⟨"Hang Loose", "🤙", some "bottom"⟩, ⟨"Unknown", "🤚", none⟩]

/-- The rule chain never leaves the fourteen listed results. -/
theorem classifyFromFeatures_mem (f : Features) :
    classifyFromFeatures f ∈ gestureResults := by
  unfold classifyFromFeatures
  by_cases h1 : 4 ≤ f.extendedCount ∧ f.thumbExtended = true
  · rw [if_pos h1]; decide
  rw [if_neg h1]
  by_cases h2 : f.thumbExtended = true ∧ f.thumbPointingUp = true ∧
    f.extendedCount = 0 ∧ f.thumbTipY < f.indexMcpY
  · rw [if_pos h2]; decide
  rw [if_neg h2]
  by_cases h3 : f.thumbExtended = true ∧ f.thumbPointingUp = false ∧
    f.extendedCount = 0 ∧ f.thumbTipY > f.thumbIpY
  · rw [if_pos h3]; decide
  rw [if_neg h3]
  by_cases h4 : f.extendedCount = 0 ∧ f.thumbExtended = false
  · rw [if_pos h4]; decide
  rw [if_neg h4]
  by_cases h5 : f.thumbIndexDistSq < 9 / 2500 ∧ f.ext1 = false ∧
    f.ext2 = false ∧ f.ext3 = false
  · rw [if_pos h5]; decide
  rw [if_neg h5]
  by_cases h6 : f.thumbIndexDistSq < 49 / 10000 ∧ f.ext1 = true ∧
    f.ext2 = true ∧ f.ext3 = true
  · rw [if_pos h6]; decide
  rw [if_neg h6]
  by_cases h7 : f.ext0 = true ∧ f.ext1 = true ∧ f.ext2 = false ∧ f.ext3 = false
  · rw [if_pos h7]; decide
  rw [if_neg h7]
  by_cases h8 : f.ext0 = true ∧ f.ext1 = false ∧ f.ext2 = false ∧ f.ext3 = false
  · rw [if_pos h8]; decide
  rw [if_neg h8]
  by_cases h9 : f.ext0 = true ∧ f.ext1 = true ∧ f.ext2 = true ∧ f.ext3 = false
  · rw [if_pos h9]; decide
  rw [if_neg h9]
  by_cases h10 : f.thumbExtended = true ∧ f.ext0 = true ∧ f.ext1 = false ∧
    f.ext2 = false ∧ f.ext3 = false
  · rw [if_pos h10]; decide
  rw [if_neg h10]
  by_cases h11 : 4 ≤ f.extendedCount ∧ f.thumbExtended = false
  · rw [if_pos h11]; decide
  rw [if_neg h11]
  by_cases h12 : f.ext0 = true ∧ f.ext1 = false ∧ f.ext2 = false ∧ f.ext3 = true
  · rw [if_pos h12]; decide
  rw [if_neg h12]
  by_cases h13 : f.thumbExtended = true ∧ f.ext0 = false ∧ f.ext1 = false ∧
    f.ext2 = false ∧ f.ext3 = true
  · rw [if_pos h13]; decide
  rw [if_neg h13]
  decide

/-- Every branch of the rule chain yields an action in the closed
enumeration, and an action of `none` arises only on the Unknown
fallback. -/
theorem classifyFromFeatures_action_cases (f : Features) :
    (classifyFromFeatures f).action ∈ actionTags ∧
      ((classifyFromFeatures f).action = none →
        classifyFromFeatures f = ⟨"Unknown", "🤚", none⟩) := by
  have hall : ∀ r ∈ gestureResults,
      r.action ∈ actionTags ∧ (r.action = none → r = ⟨"Unknown", "🤚", none⟩) := by
    decide
  exact hall _ (classifyFromFeatures_mem f)


/-- Rule 8's first-match behaviour at the feature level: with index
extended, the other fingers curled, thumb extended, and a thumb-index
distance of at least 0.06 (so the Pinch rule cannot fire), the chain
reaches rule 8 and returns Pointing. -/
theorem classifyFromFeatures_pointing (f : Features) (h0 : f.ext0 = true)
    (h1 : f.ext1 = false) (h2 : f.ext2 = false) (h3 : f.ext3 = false)
    (ht : f.thumbExtended = true) (hd : 9 / 2500 ≤ f.thumbIndexDistSq) :
    classifyFromFeatures f = ⟨"Pointing", "☝️", some "point"⟩ := by
  have hc : f.extendedCount = 1 := by
    unfold Features.extendedCount
    rw [h0, h1, h2, h3]
    decide
  unfold classifyFromFeatures
  have n1 : ¬(4 ≤ f.extendedCount ∧ f.thumbExtended = true) := by
    rintro ⟨h4, _⟩; omega
  rw [if_neg n1]
  have n2 : ¬(f.thumbExtended = true ∧ f.thumbPointingUp = true ∧
      f.extendedCount = 0 ∧ f.thumbTipY < f.indexMcpY) := by
    rintro ⟨_, _, hz, _⟩; omega
  rw [if_neg n2]
  have n3 : ¬(f.thumbExtended = true ∧ f.thumbPointingUp = false ∧
      f.extendedCount = 0 ∧ f.thumbTipY > f.thumbIpY) := by
    rintro ⟨_, _, hz, _⟩; omega
  rw [if_neg n3]
  have n4 : ¬(f.extendedCount = 0 ∧ f.thumbExtended = false) := by
    rintro ⟨hz, _⟩; omega
  rw [if_neg n4]
  have n5 : ¬(f.thumbIndexDistSq < 9 / 2500 ∧ f.ext1 = false ∧
      f.ext2 = false ∧ f.ext3 = false) := by
    rintro ⟨hlt, _⟩; exact absurd hlt (not_lt.mpr hd)
  rw [if_neg n5]
  have n6 : ¬(f.thumbIndexDistSq < 49 / 10000 ∧ f.ext1 = true ∧
      f.ext2 = true ∧ f.ext3 = true) := by
    rintro ⟨_, he1, _⟩; rw [h1] at he1; exact absurd he1 (by decide)
  rw [if_neg n6]
  have n7 : ¬(f.ext0 = true ∧ f.ext1 = true ∧ f.ext2 = false ∧
      f.ext3 = false) := by
    rintro ⟨_, he1, _⟩; rw [h1] at he1; exact absurd he1 (by decide)
  rw [if_neg n7]
  rw [if_pos ⟨h0, h1, h2, h3⟩]

/-- Like `handC2` but with the thumb tip moved away from the index tip
(thumb-index squared distance 2/25 ≥ 0.06²); same Boolean features. -/
def handPointing : List Landmark :=
  [⟨0, 1, none⟩, ⟨0, 0, none⟩, ⟨0, 1/2, none⟩, ⟨1/10, 1/2, none⟩,
   ⟨3/10, 3/10, none⟩, ⟨1/2, 3/5, none⟩, ⟨1/2, 1/2, none⟩, ⟨0, 0, none⟩,
   ⟨1/2, 1/10, none⟩, ⟨0, 0, none⟩, ⟨0, 1/2, none⟩, ⟨0, 0, none⟩,
   ⟨0, 9/10, none⟩, ⟨0, 0, none⟩, ⟨0, 1/2, none⟩, ⟨0, 0, none⟩,
   ⟨0, 9/10, none⟩, ⟨0, 0, none⟩, ⟨0, 1/2, none⟩, ⟨0, 0, none⟩,
   ⟨0, 9/10, none⟩]

/-- A hand with all four fingers and the thumb extended (Open Palm). -/
def handOpenPalm : List Landmark :=
  [⟨1/2, 1, none⟩, ⟨0, 0, none⟩, ⟨0, 1/2, none⟩, ⟨1/10, 1/2, none⟩,
   ⟨3/10, 3/10, none⟩, ⟨1/2, 3/5, none⟩, ⟨1/2, 1/2, none⟩, ⟨0, 0, none⟩,
   ⟨1/2, 1/10, none⟩, ⟨0, 0, none⟩, ⟨3/5, 1/2, none⟩, ⟨0, 0, none⟩,
   ⟨3/5, 1/10, none⟩, ⟨0, 0, none⟩, ⟨7/10, 1/2, none⟩, ⟨0, 0, none⟩,
   ⟨7/10, 1/10, none⟩, ⟨0, 0, none⟩, ⟨4/5, 1/2, none⟩, ⟨0, 0, none⟩,
   ⟨4/5, 1/10, none⟩]

/-- The feature values of `handPointing`. -/
def fPointing : Features :=
  ⟨true, false, false, false, true, true, 3/10, 3/5, 1/2, 2/25⟩

/-- Feature extraction on the concrete hand `handC2`. -/
theorem handC2_features : handFeatures? handC2 = some fC2 := by
  have h1 : handFeatures? handC2 =
      some (extractFeatures ⟨0, 1, none⟩ ⟨0, 1/2, none⟩ ⟨1/10, 1/2, none⟩
        ⟨1/2, 1/10, none⟩ ⟨1/2, 3/5, none⟩ ⟨1/2, 1/2, none⟩ ⟨1/2, 1/10, none⟩
        ⟨0, 1/2, none⟩ ⟨0, 9/10, none⟩ ⟨0, 1/2, none⟩ ⟨0, 9/10, none⟩
        ⟨0, 1/2, none⟩ ⟨0, 9/10, none⟩) := rfl
  rw [h1]
  unfold extractFeatures landmarkDistSq zOr0 fC2
  norm_num [abs_of_pos]

/-- Feature extraction on the concrete hand `handPointing`. -/
theorem handPointing_features :
    handFeatures? handPointing = some fPointing := by
  have h1 : handFeatures? handPointing =
      some (extractFeatures ⟨0, 1, none⟩ ⟨0, 1/2, none⟩ ⟨1/10, 1/2, none⟩
        ⟨3/10, 3/10, none⟩ ⟨1/2, 3/5, none⟩ ⟨1/2, 1/2, none⟩ ⟨1/2, 1/10, none⟩
        ⟨0, 1/2, none⟩ ⟨0, 9/10, none⟩ ⟨0, 1/2, none⟩ ⟨0, 9/10, none⟩
        ⟨0, 1/2, none⟩ ⟨0, 9/10, none⟩) := rfl
  rw [h1]
  unfold extractFeatures landmarkDistSq zOr0 fPointing
  norm_num [abs_of_pos]

/-- `handPointing`'s thumb-index squared distance 2/25 clears the squared
pinch threshold 9/2500. -/
theorem fPointing_dist : 9 / 2500 ≤ fPointing.thumbIndexDistSq := by
  norm_num [fPointing]

/-- The rule chain sends `fC2` to Pinch: rules 1-4 fail (one finger
extended), rule 5 fires on the zero thumb-index distance. -/
theorem fC2_pinch :
    classifyFromFeatures fC2 = ⟨"Pinch", "🤏", some "zoom"⟩ := by
  have n1 : ¬(4 ≤ fC2.extendedCount ∧ fC2.thumbExtended = true) := by decide
  have n2 : ¬(fC2.thumbExtended = true ∧ fC2.thumbPointingUp = true ∧
      fC2.extendedCount = 0 ∧ fC2.thumbTipY < fC2.indexMcpY) := by decide
  have n3 : ¬(fC2.thumbExtended = true ∧ fC2.thumbPointingUp = false ∧
      fC2.extendedCount = 0 ∧ fC2.thumbTipY > fC2.thumbIpY) := by decide
  have n4 : ¬(fC2.extendedCount = 0 ∧ fC2.thumbExtended = false) := by decide
  have p5 : fC2.thumbIndexDistSq < 9 / 2500 ∧ fC2.ext1 = false ∧
      fC2.ext2 = false ∧ fC2.ext3 = false := by
    refine ⟨?_, rfl, rfl, rfl⟩
    norm_num [fC2]
  unfold classifyFromFeatures
  rw [if_neg n1, if_neg n2, if_neg n3, if_neg n4, if_pos p5]

/-- C1: from a fresh ConfirmationState with CONFIRM_FRAMES = 3, the raw
sequence [A, A, B, B, B] produces no emission on frames 1 through 4 and
emits B exactly once, on frame 5. -/
theorem confirmation_gate_C1 :
    (runFrames initPipelineState
      [(some gA, 0), (some gA, 1), (some gB, 2), (some gB, 3), (some gB, 4)]).2 =
      [none, none, none, none, some gB] := by decide

/-- C2 counterexample: a hand whose features satisfy both the Pointing and
the L-Shape predicates (index extended, other fingers curled, thumb
extended) but whose thumb-index distance is below the 0.06 pinch
threshold is classified "Pinch", not "Pointing", so the claim as stated
is false. -/
theorem rule_order_C2_counterexample :
    handFeatures? handC2 = some fC2 ∧
    fC2.ext0 = true ∧ fC2.ext1 = false ∧ fC2.ext2 = false ∧
    fC2.ext3 = false ∧ fC2.thumbExtended = true ∧
    classifyGesture? handC2 = some ⟨"Pinch", "🤏", some "zoom"⟩ ∧
    classifyGesture? handC2 ≠ some ⟨"Pointing", "☝️", some "point"⟩ := by
  have hcg : classifyGesture? handC2 = some ⟨"Pinch", "🤏", some "zoom"⟩ := by
    unfold classifyGesture?
    rw [handC2_features,
      show Option.map classifyFromFeatures (some fC2) =
        some (classifyFromFeatures fC2) from rfl,
      fC2_pinch]
  refine ⟨handC2_features, rfl, rfl, rfl, rfl, rfl, hcg, ?_⟩
  rw [hcg]
  decide

/-- C2 (amended): for every hand whose features satisfy both the Pointing
and the L-Shape predicates and whose thumb-index distance is at least the
0.06 pinch threshold, the classifier returns "Pointing" (action "point"),
because rule 8 precedes rule 10. -/
theorem rule_order_C2_amended (h : List Landmark) (f : Features)
    (hf : handFeatures? h = some f)
    (h0 : f.ext0 = true) (h1 : f.ext1 = false) (h2 : f.ext2 = false)
    (h3 : f.ext3 = false) (ht : f.thumbExtended = true)
    (hd : 9 / 2500 ≤ f.thumbIndexDistSq) :
    classifyGesture? h = some ⟨"Pointing", "☝️", some "point"⟩ := by
  have hp := classifyFromFeatures_pointing f h0 h1 h2 h3 ht hd
  unfold classifyGesture?
  rw [hf,
    show Option.map classifyFromFeatures (some f) =
      some (classifyFromFeatures f) from rfl,
    hp]

/-- C2 witness: the amended theorem applied to a concrete Pointing/L-Shape
hand whose thumb-index squared distance is 2/25 ≥ 0.06². -/
theorem rule_order_C2_witness :
    classifyGesture? handPointing = some ⟨"Pointing", "☝️", some "point"⟩ :=
  rule_order_C2_amended handPointing fPointing handPointing_features
    rfl rfl rfl rfl rfl fPointing_dist

/-- C3: with CONFIRM_FRAMES = 3 the sequence [A, A, none, A, A, A] emits A
only on frame 6; the "none" frame clears the sliding window and resets
confirmedLabel, so the pre-gap observations do not combine with the
post-gap ones. -/
theorem gap_resets_streak_C3 :
    (runFrames initPipelineState
      [(some gA, 0), (some gA, 1), (none, 2)]).1.conf = initConfState ∧
    (runFrames initPipelineState
      [(some gA, 0), (some gA, 1), (none, 2),
       (some gA, 3), (some gA, 4), (some gA, 5)]).2 =
      [none, none, none, none, none, some gA] := by decide

/-- C4: after "A" is emitted at t = 0, a second confirmation of "A" at
t = 500 (< DEBOUNCE_MS = 800) is suppressed and leaves
lastGesture/gestureDebounce unchanged; the same confirmation at t = 900
is emitted. -/
theorem same_label_debounce_C4 :
    executeGestureAction initDebounceState gA 0 = (⟨"A", 0⟩, true) ∧
    executeGestureAction ⟨"A", 0⟩ gA 500 = (⟨"A", 0⟩, false) ∧
    executeGestureAction ⟨"A", 0⟩ gA 900 = (⟨"A", 900⟩, true) := by decide

/-- C5: a confirmation whose label differs from the previously emitted one
is emitted immediately, whatever the elapsed time — the debounce gate
only applies to a repeat of the same label. -/
theorem different_label_override_C5 (s : DebounceState) (g : GestureResult)
    (now : ℤ) (hne : g.name ≠ s.lastGesture) :
    executeGestureAction s g now = (⟨g.name, now⟩, true) := by
  unfold executeGestureAction
  rw [if_neg (by rintro ⟨he, _⟩; exact hne he)]

/-- C5 witness: after "A" was emitted at t = 0, "B" at t = 10 is emitted. -/
theorem different_label_override_C5_witness :
    executeGestureAction ⟨"A", 0⟩ gB 10 = (⟨"B", 10⟩, true) :=
  different_label_override_C5 ⟨"A", 0⟩ gB 10 (by decide)

/-- C6: whenever the extracted features have at least four extended
fingers and an extended thumb, the first rule fires and the classifier
returns "Open Palm" with action "stop", regardless of every other
feature value. -/
theorem open_palm_first_rule_C6 (f : Features) (h4 : 4 ≤ f.extendedCount)
    (ht : f.thumbExtended = true) :
    classifyFromFeatures f = ⟨"Open Palm", "✋", some "stop"⟩ := by
  unfold classifyFromFeatures
  rw [if_pos ⟨h4, ht⟩]

/-- C6 witness: the theorem applied to features with all four fingers and
the thumb extended and arbitrary other values. -/
theorem open_palm_first_rule_C6_witness :
    classifyFromFeatures ⟨true, true, true, true, true, false, 7, 5, 3, 1⟩ =
      ⟨"Open Palm", "✋", some "stop"⟩ :=
  open_palm_first_rule_C6 ⟨true, true, true, true, true, false, 7, 5, 3, 1⟩
    (by decide) (by decide)

/-- C7: on every well-formed hand (21 landmarks) the classifier returns a
result whose action lies in the closed ActionTag enumeration, and an
action of "none" occurs only with the Unknown fallback result. -/
theorem action_enumeration_C7 (h : List Landmark) (hl : h.length = 21) :
    ∃ r, classifyGesture? h = some r ∧ r.action ∈ actionTags ∧
      (r.action = none → r = ⟨"Unknown", "🤚", none⟩) := by
  obtain ⟨f, hf⟩ := handFeatures?_isSome h hl
  refine ⟨classifyFromFeatures f, ?_,
    (classifyFromFeatures_action_cases f).1,
    (classifyFromFeatures_action_cases f).2⟩
  unfold classifyGesture?
  rw [hf,
    show Option.map classifyFromFeatures (some f) =
      some (classifyFromFeatures f) from rfl]

/-- C7 witness: the theorem applied to a concrete 21-landmark hand. -/
theorem action_enumeration_C7_witness :
    ∃ r, classifyGesture? handOpenPalm = some r ∧ r.action ∈ actionTags ∧
      (r.action = none → r = ⟨"Unknown", "🤚", none⟩) :=
  action_enumeration_C7 handOpenPalm (by decide)

/-- C8 counterexample: `stopGestureRecognition` clears the sliding window
and confirmedLabel but leaves lastGesture/gestureDebounce untouched, so a
state that had emitted "A" at t = 0 does not return to the initial state;
behaviourally, a fresh triple confirmation of "A" right after the stop is
still debounced. -/
theorem stop_reset_C8_counterexample :
    stopReset ⟨⟨["A"], some "A"⟩, ⟨"A", 0⟩⟩ ≠ initPipelineState ∧
    (stopReset ⟨⟨["A"], some "A"⟩, ⟨"A", 0⟩⟩).conf = initConfState ∧
    (stopReset ⟨⟨["A"], some "A"⟩, ⟨"A", 0⟩⟩).deb = ⟨"A", 0⟩ ∧
    (runFrames (stopReset ⟨⟨["A"], some "A"⟩, ⟨"A", 0⟩⟩)
      [(some gA, 100), (some gA, 200), (some gA, 300)]).2 =
      [none, none, none] := by decide

/-- C8 (amended): stopping gesture detection resets the sliding window
and confirmedLabel to their initial empty values, but leaves the debounce
fields lastGesture and gestureDebounce unchanged. -/
theorem stop_reset_C8_amended (s : PipelineState) :
    (stopReset s).conf.gestureBuffer = [] ∧
    (stopReset s).conf.confirmedGesture = none ∧
    (stopReset s).deb.lastGesture = s.deb.lastGesture ∧
    (stopReset s).deb.gestureDebounce = s.deb.gestureDebounce :=
  ⟨rfl, rfl, rfl, rfl⟩

/-- C9: on every hand of exactly 21 landmarks every index the classifier
reads is in range, so it returns exactly one result and no failure branch
is reachable. -/
theorem classifier_totality_C9 (h : List Landmark) (hl : h.length = 21) :
    ∃ r, classifyGesture? h = some r := by
  obtain ⟨f, hf⟩ := handFeatures?_isSome h hl
  refine ⟨classifyFromFeatures f, ?_⟩
  unfold classifyGesture?
  rw [hf,
    show Option.map classifyFromFeatures (some f) =
      some (classifyFromFeatures f) from rfl]

/-- C9 witness: the theorem applied to a concrete 21-landmark hand. -/
theorem classifier_totality_C9_witness :
    ∃ r, classifyGesture? handC2 = some r :=
  classifier_totality_C9 handC2 (by decide)

/-- C10: the debounce history has depth one — emitting "B" overwrites the
stored lastGesture/gestureDebounce pair for "A", so "A" re-emits at
t = 20 even though far less than DEBOUNCE_MS elapsed since its emission
at t = 0. -/
theorem debounce_depth_one_C10 :
    executeGestureAction initDebounceState gA 0 = (⟨"A", 0⟩, true) ∧
    executeGestureAction ⟨"A", 0⟩ gB 10 = (⟨"B", 10⟩, true) ∧
    executeGestureAction ⟨"B", 10⟩ gA 20 = (⟨"A", 20⟩, true) := by decide
